import Mathlib

/-!
Shallow embedding of the vloex-python repository.

Python strings are modelled by their UTF-8 byte sequences as `List Nat`
(each element a byte).  All the character-level operations the code performs
(`'=' in s`, `s.split('=')`, digit tests, formatting of integers) act on
ASCII characters, where the UTF-8 encoding is one byte per character, so the
byte-level model coincides with Python's character-level semantics.
`bytes` values (`str.encode('utf-8')` results, HMAC digests) are likewise
`List Nat`.  Fallible Python code (functions that can raise) is embedded as
`Option`/`Except`-returning functions, with `none`/`.error` marking a raised
exception.  The clock `time.time()` is modelled as an integer number of
seconds (`now : Int`); only whole-second distances matter to the claims.
-/

/-- UTF-8 bytes of an ASCII string literal (one byte per character). -/
def asciiBytes (s : String) : List Nat := s.data.map Char.toNat

/-! ### 32-bit word arithmetic (SHA-256 works on 32-bit words; words are
naturals kept below 2^32 by explicit reduction) -/

def w32 (n : Nat) : Nat := n % 4294967296

def add32 (a b : Nat) : Nat := (a + b) % 4294967296

def not32 (x : Nat) : Nat := x ^^^ 4294967295

def rotr32 (n x : Nat) : Nat := w32 ((x >>> n) ||| (x <<< (32 - n)))

/-! ### SHA-256 (FIPS 180-4), as computed by Python's `hashlib.sha256`.
The repository calls `hashlib.sha256` through `hmac.new`; the algorithm is
embedded here in full so that the verification predicate is executable. -/

def sigBig0 (x : Nat) : Nat := rotr32 2 x ^^^ rotr32 13 x ^^^ rotr32 22 x

def sigBig1 (x : Nat) : Nat := rotr32 6 x ^^^ rotr32 11 x ^^^ rotr32 25 x

def sigSmall0 (x : Nat) : Nat := rotr32 7 x ^^^ rotr32 18 x ^^^ (x >>> 3)

def sigSmall1 (x : Nat) : Nat := rotr32 17 x ^^^ rotr32 19 x ^^^ (x >>> 10)

def chF (x y z : Nat) : Nat := (x &&& y) ^^^ (not32 x &&& z)

def majF (x y z : Nat) : Nat := (x &&& y) ^^^ (x &&& z) ^^^ (y &&& z)

def sha256K : List Nat :=
  [1116352408, 1899447441, 3049323471, 3921009573, 961987163,
   1508970993, 2453635748, 2870763221, 3624381080, 310598401,
   607225278, 1426881987, 1925078388, 2162078206, 2614888103,
   3248222580, 3835390401, 4022224774, 264347078, 604807628,
   770255983, 1249150122, 1555081692, 1996064986, 2554220882,
   2821834349, 2952996808, 3210313671, 3336571891, 3584528711,
   113926993, 338241895, 666307205, 773529912, 1294757372,
   1396182291, 1695183700, 1986661051, 2177026350, 2456956037,
   2730485921, 2820302411, 3259730800, 3345764771, 3516065817,
   3600352804, 4094571909, 275423344, 430227734, 506948616,
   659060556, 883997877, 958139571, 1322822218, 1537002063,
   1747873779, 1955562222, 2024104815, 2227730452, 2361852424,
   2428436474, 2756734187, 3204031479, 3329325298]

def sha256H0 : List Nat :=
  [1779033703, 3144134277, 1013904242, 2773480762,
   1359893119, 2600822924, 528734635, 1541459225]

/-- Big-endian 32-bit words from a byte list (length a multiple of 4). -/
def bytesToWordsBE : List Nat → List Nat
  | a :: b :: c :: d :: rest => (((a * 256 + b) * 256 + c) * 256 + d) :: bytesToWordsBE rest
  | _ => []

/-- The four big-endian bytes of a 32-bit word. -/
def wordToBytesBE (w : Nat) : List Nat :=
  [w / 16777216 % 256, w / 65536 % 256, w / 256 % 256, w % 256]

/-- Big-endian rendering: `k` bytes of `n`, most significant first. -/
def natToBytesBE : Nat → Nat → List Nat
  | 0, _ => []
  | k + 1, n => natToBytesBE k (n / 256) ++ [n % 256]

/-- SHA-256 padding: append `0x80`, zeros to 56 mod 64, then the 64-bit
big-endian bit length. -/
def sha256Pad (msg : List Nat) : List Nat :=
  msg ++ 128 :: (List.replicate ((119 - msg.length % 64) % 64) 0 ++ natToBytesBE 8 (8 * msg.length))

/-- Split a byte list into 64-byte blocks. -/
def toBlocks (l : List Nat) : List (List Nat) :=
  if h : l = [] then [] else
    have hl : 0 < l.length := List.length_pos.mpr h
    l.take 64 :: toBlocks (l.drop 64)
termination_by l.length
decreasing_by
  simp only [List.length_drop]
  omega

/-- Extend the 16-word block to the 64-word message schedule (48 steps). -/
def extendW : Nat → List Nat → List Nat
  | 0, ws => ws
  | k + 1, ws =>
      extendW k (ws ++ [w32 (sigSmall1 (ws.getD (ws.length - 2) 0) + ws.getD (ws.length - 7) 0 +
        sigSmall0 (ws.getD (ws.length - 15) 0) + ws.getD (ws.length - 16) 0)])

/-- One SHA-256 compression round on the eight working registers. -/
def sha256Round (st : List Nat) (kw : Nat × Nat) : List Nat :=
  match st with
  | [a, b, c, d, e, f, g, h] =>
      let t1 := w32 (h + sigBig1 e + chF e f g + kw.1 + kw.2)
      let t2 := w32 (sigBig0 a + majF a b c)
      [w32 (t1 + t2), a, b, c, w32 (d + t1), e, f, g]
  | other => other

/-- Process one 64-byte block: 64 rounds, then add to the chaining state. -/
def sha256Compress (st : List Nat) (block : List Nat) : List Nat :=
  List.zipWith add32 st ((List.zip sha256K (extendW 48 (bytesToWordsBE block))).foldl sha256Round st)

/-- SHA-256 digest (32 bytes) of a byte string. -/
def sha256 (msg : List Nat) : List Nat :=
  (((toBlocks (sha256Pad msg)).foldl sha256Compress sha256H0).map wordToBytesBE).flatten

/-! ### Lowercase hex encoding (Python's `.hexdigest()`) -/

def hexDigitChar (n : Nat) : Nat := if n < 10 then 48 + n else 87 + n

def byteToHex (b : Nat) : List Nat := [hexDigitChar (b / 16), hexDigitChar (b % 16)]

def bytesToHex (bs : List Nat) : List Nat := (bs.map byteToHex).flatten

/-! ### HMAC-SHA256 (Python's `hmac.new(key, msg, hashlib.sha256)`),
block size 64 bytes -/

def hmacSha256 (key msg : List Nat) : List Nat :=
  let k0 := if 64 < key.length then sha256 key else key
  let kb := k0 ++ List.replicate (64 - k0.length) 0
  sha256 ((kb.map (fun b => b ^^^ 92)) ++ sha256 ((kb.map (fun b => b ^^^ 54)) ++ msg))

/-- Lowercase-hex HMAC: `hmac.new(key, msg, hashlib.sha256).hexdigest()`. -/
def hmacSha256Hex (key msg : List Nat) : List Nat := bytesToHex (hmacSha256 key msg)

/-! ### Python `int(str)` on decimal strings.
`int(timestamp)` in `verify_webhook_signature` raises `ValueError` on a
non-integer string; that fallibility is modelled by `Option`.  Python also
strips surrounding whitespace and accepts a leading sign.  (Underscore digit
grouping and non-ASCII digits are accepted by Python but not modelled; no
input exercised here contains them.) -/

def pyWhitespace (c : Nat) : Bool := c = 32 || (9 ≤ c && c ≤ 13)

def pyStrip (s : List Nat) : List Nat :=
  ((s.dropWhile pyWhitespace).reverse.dropWhile pyWhitespace).reverse

def isDigitByte (c : Nat) : Bool := 48 ≤ c && c ≤ 57

def digitsToNat (ds : List Nat) : Nat := ds.foldl (fun a c => 10 * a + (c - 48)) 0

/-- Python's `int(s)` for a decimal string: `none` models a raised
`ValueError`. -/
def pyInt (s : List Nat) : Option Int :=
  match pyStrip s with
  | [] => none
  | c :: rest =>
    if c = 43 then
      if rest ≠ [] ∧ rest.all isDigitByte then some (digitsToNat rest : Int) else none
    else if c = 45 then
      if rest ≠ [] ∧ rest.all isDigitByte then some (-(digitsToNat rest : Int)) else none
    else
      if (c :: rest).all isDigitByte then some (digitsToNat (c :: rest) : Int) else none

/-- Decimal digit characters of a positive natural (empty for 0). -/
def natDigits (n : Nat) : List Nat :=
  if h : n = 0 then [] else natDigits (n / 10) ++ [48 + n % 10]
termination_by n
decreasing_by exact Nat.div_lt_self (Nat.pos_of_ne_zero h) (by omega)

/-- Python's `str(i)` / f-string rendering of an integer. -/
def pyStrOfInt (i : Int) : List Nat :=
  if i < 0 then 45 :: natDigits i.natAbs
  else if i = 0 then [48]
  else natDigits i.toNat

/-! ### Python `str.split(sep)` and the signature-header digest extraction
(line 127 of `github-release-with-webhook.py`):
`signature.split('=')[1] if '=' in signature else signature`. -/

/-- Python's `s.split(sep)` for a one-character separator: the list of
maximal separator-free segments (empty segments included). -/
def pySplit (sep : Nat) : List Nat → List (List Nat)
  | [] => [[]]
  | c :: cs =>
    if c = sep then [] :: pySplit sep cs
    else
      match pySplit sep cs with
      | [] => [[c]]
      | s :: rest => (c :: s) :: rest

/-- The digest `verify_webhook_signature` compares: `split('=')[1]` when the
header contains `'='` (byte 61), otherwise the whole header.  When `'='`
occurs the split has at least two fields, so the default of `getD` is never
used. -/
def extractDigest (signature : List Nat) : List Nat :=
  if 61 ∈ signature then (pySplit 61 signature).getD 1 [] else signature

/-- Modelled from the spec: "if the header contains an ASCII `=`, the digest
is everything after the first `=`; otherwise the whole header value is the
digest."  Stated for comparison with `extractDigest`, the code's rule. -/
def specExtractDigest (signature : List Nat) : List Nat :=
  if 61 ∈ signature then (signature.dropWhile (fun c => c ≠ 61)).tail else signature

/-- Lowercase hex digit characters: `0`-`9` (48-57) and `a`-`f` (97-102),
the alphabet `.hexdigest()` emits. -/
def isHexDigitByte (c : Nat) : Bool := (48 ≤ c && c ≤ 57) || (97 ≤ c && c ≤ 102)

/-! ### `hmac.compare_digest`, modelled from CPython's `_tscmp`
(`Modules/hmacmodule.c`): the loop runs over the full length of the second
argument regardless of content — `result` starts at 0 when the lengths agree
(1 otherwise), the left operand is the first argument when lengths agree and
the second argument otherwise, and every step accumulates
`result |= left[i] ^ right[i]` with no early exit.  `tscmp` returns the
final accumulator together with the number of loop iterations performed, so
that the absence of short-circuiting is itself a provable statement. -/

def tscmp : List (Nat × Nat) → Nat → Nat × Nat
  | [], acc => (acc, 0)
  | p :: ps, acc =>
    ((tscmp ps (acc ||| (p.1 ^^^ p.2))).1, (tscmp ps (acc ||| (p.1 ^^^ p.2))).2 + 1)

/-- The `_tscmp` run on digest byte strings `a`, `b`: final accumulator and
iteration count. -/
def compareDigestRun (a b : List Nat) : Nat × Nat :=
  tscmp ((if a.length = b.length then a else b).zip b) (if a.length = b.length then 0 else 1)

/-- Boolean result of `hmac.compare_digest(a, b)`: true when the final accumulator is zero. -/
def compare_digest (a b : List Nat) : Bool := (compareDigestRun a b).1 = 0

/-! ### `verify_webhook_signature` (github-release-with-webhook.py, lines
106-128).  Arguments are the Python ones plus the clock `now` (the value of
`time.time()`, modelled in whole seconds); `none` models a raised exception
(`int(timestamp)` on a non-integer string). -/

def verify_webhook_signature (payload_json signature timestamp secret : List Nat)
    (now : Int) : Option Bool :=
  match pyInt timestamp with
  | none => none
  | some ts =>
    if 300 < (now - ts).natAbs then some false
    else
      let message := timestamp ++ 46 :: payload_json
      let expected_signature := hmacSha256Hex secret message
      let provided_signature := extractDigest signature
      some (compare_digest expected_signature provided_signature)

/-! ### JSON syntactic validity (Python's `json.loads`, RFC 8259 grammar),
needed because the handler calls `request.get_json()` (line 152) after the
signature guard: a body that is not valid JSON makes that call fail instead
of reaching the 200 response.  The parser below decides exactly whether a
byte string is one complete JSON document: values are objects, arrays,
strings (with the `\"`/`\\`/`\/`/`\b`/`\f`/`\n`/`\r`/`\t`/`\uXXXX` escapes,
no raw control characters; bytes ≥ 0x80 are interiors of multi-byte UTF-8
characters, which JSON strings allow), strict numbers (no leading `+`, no
leading zeros, `.`/exponent each requiring digits), `true`, `false`,
`null`, with `space`/`tab`/`LF`/`CR` whitespace between tokens.  Python's
non-standard acceptance of `NaN`/`Infinity` is not modelled (no input here
uses it).  Recursion is fueled; one byte of input is consumed before every
fuel decrement, so fuel `length + 1` never runs out on a valid document. -/

def jsonWsByte (c : Nat) : Bool := c = 32 || c = 9 || c = 10 || c = 13

def skipJsonWs (s : List Nat) : List Nat := s.dropWhile jsonWsByte

def isHexEscDigit (c : Nat) : Bool :=
  isDigitByte c || (97 ≤ c && c ≤ 102) || (65 ≤ c && c ≤ 70)

/-- Remainder after a JSON string body (the opening quote already consumed). -/
def jsonStringRest : List Nat → Option (List Nat)
  | 34 :: rest => some rest
  | 92 :: 117 :: h1 :: h2 :: h3 :: h4 :: rest =>
    if isHexEscDigit h1 && isHexEscDigit h2 && isHexEscDigit h3 && isHexEscDigit h4 then
      jsonStringRest rest
    else none
  | 92 :: e :: rest =>
    if e = 34 ∨ e = 92 ∨ e = 47 ∨ e = 98 ∨ e = 102 ∨ e = 110 ∨ e = 114 ∨ e = 116 then
      jsonStringRest rest
    else none
  | c :: rest => if c < 32 then none else jsonStringRest rest
  | [] => none

/-- Remainder after the integer part of a JSON number: a single `0`, or a
nonzero digit followed by digits (leading zeros rejected). -/
def jsonIntRest : List Nat → Option (List Nat)
  | c :: rest =>
    if c = 48 then some rest
    else if isDigitByte c then some (rest.dropWhile isDigitByte)
    else none
  | [] => none

/-- Remainder after the optional fraction part: `.` demands digits. -/
def jsonFracRest : List Nat → Option (List Nat)
  | 46 :: d :: rest =>
    if isDigitByte d then some ((d :: rest).dropWhile isDigitByte) else none
  | [46] => none
  | s => some s

def jsonExpDigits : List Nat → Option (List Nat)
  | d :: rest => if isDigitByte d then some ((d :: rest).dropWhile isDigitByte) else none
  | [] => none

/-- Remainder after the optional exponent part: `e`/`E`, optional sign,
then mandatory digits. -/
def jsonExpRest : List Nat → Option (List Nat)
  | e :: c :: rest =>
    if e = 101 ∨ e = 69 then
      if c = 43 ∨ c = 45 then jsonExpDigits rest else jsonExpDigits (c :: rest)
    else some (e :: c :: rest)
  | [e] => if e = 101 ∨ e = 69 then none else some [e]
  | [] => some []

/-- Remainder after a JSON number starting at the first digit (any leading
`-` already consumed). -/
def jsonNumberRest (s : List Nat) : Option (List Nat) :=
  (jsonIntRest s).bind (fun r1 => (jsonFracRest r1).bind jsonExpRest)

mutual

/-- Remainder after one JSON value (leading whitespace already skipped). -/
def jsonValueF : Nat → List Nat → Option (List Nat)
  | 0, _ => none
  | _ + 1, [] => none
  | fuel + 1, 123 :: rest =>
    match skipJsonWs rest with
    | 125 :: rest2 => some rest2
    | s2 => jsonMembersF fuel s2
  | fuel + 1, 91 :: rest =>
    match skipJsonWs rest with
    | 93 :: rest2 => some rest2
    | s2 => jsonElementsF fuel s2
  | _ + 1, 34 :: rest => jsonStringRest rest
  | _ + 1, 116 :: 114 :: 117 :: 101 :: rest => some rest
  | _ + 1, 102 :: 97 :: 108 :: 115 :: 101 :: rest => some rest
  | _ + 1, 110 :: 117 :: 108 :: 108 :: rest => some rest
  | _ + 1, 45 :: rest => jsonNumberRest rest
  | _ + 1, c :: rest => if isDigitByte c then jsonNumberRest (c :: rest) else none

/-- Remainder after `key : value` pairs up to the closing `}` (called past
the opening `{` of a non-empty object, whitespace skipped). -/
def jsonMembersF : Nat → List Nat → Option (List Nat)
  | 0, _ => none
  | fuel + 1, 34 :: rest =>
    match jsonStringRest rest with
    | none => none
    | some afterKey =>
      match skipJsonWs afterKey with
      | 58 :: afterColon =>
        match jsonValueF fuel (skipJsonWs afterColon) with
        | none => none
        | some afterVal =>
          match skipJsonWs afterVal with
          | 44 :: afterComma => jsonMembersF fuel (skipJsonWs afterComma)
          | 125 :: rest2 => some rest2
          | _ => none
      | _ => none
  | _ + 1, _ => none

/-- Remainder after array elements up to the closing `]` (called past the
opening `[` of a non-empty array, whitespace skipped). -/
def jsonElementsF : Nat → List Nat → Option (List Nat)
  | 0, _ => none
  | fuel + 1, s =>
    match jsonValueF fuel s with
    | none => none
    | some afterVal =>
      match skipJsonWs afterVal with
      | 44 :: afterComma => jsonElementsF fuel (skipJsonWs afterComma)
      | 93 :: rest2 => some rest2
      | _ => none

end

/-- Flask's `request.get_json()` (line 152) on the raw body: `none` models a
parse failure (Flask answers with its 400/415 error response — by version
and content type — and the handler body never resumes); `some b` models a
successful parse, with `b` true exactly when the top-level value is a JSON
object, i.e. `payload` is a dict.  A parsed document is an object exactly
when its first non-whitespace byte is `\x7b`. -/
def pyGetJson (body : List Nat) : Option Bool :=
  match jsonValueF ((skipJsonWs body).length + 1) (skipJsonWs body) with
  | none => none
  | some rest =>
    if skipJsonWs rest = [] then some ((skipJsonWs body).headD 0 == 123) else none

/-! ### `handle_vloex_webhook` (lines 131-181) -/

/-- Outcome of one request to the Flask handler. -/
inductive HttpOutcome where
  /-- Payload parsed and processed; `jsonify` status `received`, HTTP 200. -/
  | received200
  /-- Signature verification failed; `jsonify` error, HTTP 401. -/
  | invalidSig401
  /-- `request.get_json()` failed on a non-JSON body: Flask's client-error
  response (400 or 415 depending on Flask version and content type); the
  handler body past line 152 never runs. -/
  | badRequest
  /-- An exception escapes the handler and Flask answers 500: `int()` raising
  `ValueError` inside verification, or `payload.get` raising
  `AttributeError` when the parsed payload is not a dict. -/
  | exception
deriving DecidableEq, Repr

/-- Lines 151-181: parse the body and dispatch on the event.  The
event-specific print/TODO bodies do not affect the response; every dict
payload reaches the final 200. -/
def processPayload (payload_json : List Nat) : HttpOutcome :=
  match pyGetJson payload_json with
  | none => .badRequest
  | some true => .received200
  | some false => .exception

/-- Handler `handle_vloex_webhook`.  Missing headers arrive as the empty
string (`headers.get(..., '')`); the guard `if WEBHOOK_SECRET and
signature:` tests Python truthiness, i.e. non-emptiness, of both strings —
when it fails, verification is skipped and the payload is parsed and
processed directly. -/
def handle_vloex_webhook (webhook_secret payload_json signature timestamp : List Nat)
    (now : Int) : HttpOutcome :=
  if webhook_secret ≠ [] ∧ signature ≠ [] then
    match verify_webhook_signature payload_json signature timestamp webhook_secret now with
    | none => .exception
    | some false => .invalidSig401
    | some true => processPayload payload_json
  else processPayload payload_json

/-! ### SDK client (src/vloex/client.py) -/

def DEFAULT_BASE_URL : List Nat := asciiBytes ("https://api.vloex.com")

inductive PyExc where
  | valueError
deriving DecidableEq, Repr

/-- The state `Vloex.__init__` stores (the `videos` resource holds only a
back-reference to the client and carries no data of its own). -/
structure Vloex where
  api_key : List Nat
  base_url : List Nat
deriving DecidableEq, Repr

/-- Constructor `Vloex.__init__(api_key, base_url=DEFAULT_BASE_URL)`.  `api_key` is
`Option` so that passing Python `None` (e.g. an unset environment variable)
is representable; `if not api_key:` rejects `None` and the empty string. -/
def Vloex.init (api_key : Option (List Nat)) (base_url : List Nat) : Except PyExc Vloex :=
  match api_key with
  | none => .error .valueError
  | some k => if k = [] then .error .valueError else .ok ⟨k, base_url⟩

/-- Python truthiness of an optional list value (`None` and `[]`/`''` are
falsy). -/
def pyTruthy {α : Type} (o : Option (List α)) : Bool := !(o.getD []).isEmpty

/-- The JSON payload `from_journey` builds: a field is `none` when the
corresponding key is absent from the dict.  `options` carries the `**options`
keyword arguments verbatim (key collisions with the named fields are not
modelled; no claim depends on them). -/
structure JourneyPayload where
  product_context : List Nat
  step_duration : Int
  avatar_position : List Nat
  tone : List Nat
  screenshots : Option (List (List Nat))
  descriptions : Option (List (List Nat))
  product_url : Option (List Nat)
  pages : Option (List (List Nat))
  webhook_url : Option (List Nat)
  webhook_secret : Option (List Nat)
  options : List (List Nat × List Nat)
deriving DecidableEq, Repr

/-- Method `VideoResource.from_journey` (client.py lines 71-178) up to the HTTP
boundary: `.error` models the `ValueError` raised when `product_context` is
falsy (before any payload is built), `.ok` carries the request path and the
payload that `_request('POST', ...)` would send. -/
def from_journey (screenshots descriptions : Option (List (List Nat)))
    (product_url : Option (List Nat)) (pages : Option (List (List Nat)))
    (product_context : Option (List Nat)) (step_duration : Int)
    (avatar_position tone : List Nat) (webhook_url webhook_secret : Option (List Nat))
    (options : List (List Nat × List Nat)) : Except PyExc (List Nat × JourneyPayload) :=
  if pyTruthy product_context = false then .error .valueError
  else
    .ok (asciiBytes ("/v1/videos/from-journey"),
      { product_context := product_context.getD []
        step_duration := step_duration
        avatar_position := avatar_position
        tone := tone
        screenshots := if pyTruthy screenshots then screenshots else none
        descriptions := if pyTruthy screenshots && pyTruthy descriptions then descriptions else none
        product_url := if pyTruthy product_url then product_url else none
        pages := if pyTruthy product_url && pyTruthy pages then pages else none
        webhook_url := if pyTruthy webhook_url then webhook_url else none
        webhook_secret := if pyTruthy webhook_secret then webhook_secret else none
        options := options })

/-! ## Lemmas -/

/-! ### Hex output never contains the byte 61 (`'='`) -/

theorem hexDigitChar_ne_61 (n : Nat) : hexDigitChar n ≠ 61 := by
  unfold hexDigitChar
  split <;> omega

theorem not_mem_61_bytesToHex (bs : List Nat) : 61 ∉ bytesToHex bs := by
  intro hmem
  simp only [bytesToHex, List.mem_flatten, List.mem_map] at hmem
  obtain ⟨l, ⟨b, hb, rfl⟩, hl⟩ := hmem
  simp only [byteToHex, List.mem_cons, List.not_mem_nil, or_false] at hl
  rcases hl with h | h
  · exact hexDigitChar_ne_61 _ h.symm
  · exact hexDigitChar_ne_61 _ h.symm

theorem not_mem_61_hmacSha256Hex (key msg : List Nat) : 61 ∉ hmacSha256Hex key msg :=
  not_mem_61_bytesToHex _

/-! ### `pySplit` and `extractDigest` -/

theorem pySplit_cons_head (sep : Nat) (s : List Nat) :
    ∃ t, pySplit sep s = s.takeWhile (fun c => c != sep) :: t := by
  induction s with
  | nil => exact ⟨[], rfl⟩
  | cons c cs ih =>
    obtain ⟨t, ht⟩ := ih
    by_cases hc : c = sep
    · subst hc
      exact ⟨pySplit c cs, by simp [pySplit, List.takeWhile_cons]⟩
    · refine ⟨t, ?_⟩
      simp only [pySplit, if_neg hc, ht, List.takeWhile_cons]
      simp [bne_iff_ne, hc]

theorem pySplit_append (sep : Nat) (a b : List Nat) (ha : sep ∉ a) :
    pySplit sep (a ++ sep :: b) = a :: pySplit sep b := by
  induction a with
  | nil => simp [pySplit]
  | cons c a' ih =>
    have hc : ¬ c = sep := fun h => ha (h ▸ List.mem_cons_self _ _)
    have ha' : sep ∉ a' := fun h => ha (List.mem_cons_of_mem _ h)
    show pySplit sep (c :: (a' ++ sep :: b)) = (c :: a') :: pySplit sep b
    simp only [pySplit, if_neg hc]
    rw [ih ha']

theorem extractDigest_no_sep (s : List Nat) (h : 61 ∉ s) : extractDigest s = s := by
  simp [extractDigest, h]

theorem takeWhile_ne_of_not_mem (x : Nat) (l : List Nat) (h : x ∉ l) :
    l.takeWhile (fun c => c != x) = l := by
  induction l with
  | nil => rfl
  | cons c cs ih =>
    have hc : (c != x) = true := by
      simp only [bne_iff_ne, ne_eq]
      exact fun hcx => h (hcx ▸ List.mem_cons_self _ _)
    simp [List.takeWhile_cons, hc, ih (fun hm => h (List.mem_cons_of_mem _ hm))]

theorem extractDigest_after_first (a b : List Nat) (ha : 61 ∉ a) :
    extractDigest (a ++ 61 :: b) = b.takeWhile (fun c => c != 61) := by
  have hmem : 61 ∈ a ++ 61 :: b := List.mem_append_right _ (List.mem_cons_self _ _)
  obtain ⟨t, ht⟩ := pySplit_cons_head 61 b
  simp [extractDigest, hmem, pySplit_append 61 a b ha, ht]

/-! ### `compare_digest` -/

theorem lor_eq_zero_iff (a b : Nat) : a ||| b = 0 ↔ a = 0 ∧ b = 0 := by
  constructor
  · intro h
    refine ⟨Nat.eq_of_testBit_eq fun i => ?_, Nat.eq_of_testBit_eq fun i => ?_⟩ <;>
    · have hb := congrArg (fun n => n.testBit i) h
      simp only [Nat.testBit_or, Nat.zero_testBit, Bool.or_eq_false_iff] at hb
      simp [hb.1, hb.2, Nat.zero_testBit]
  · rintro ⟨rfl, rfl⟩
    rfl

theorem tscmp_snd (l : List (Nat × Nat)) (acc : Nat) : (tscmp l acc).2 = l.length := by
  induction l generalizing acc with
  | nil => rfl
  | cons p ps ih => simp [tscmp, ih]

theorem tscmp_fst_eq_zero (l : List (Nat × Nat)) (acc : Nat) :
    (tscmp l acc).1 = 0 ↔ acc = 0 ∧ ∀ p ∈ l, p.1 = p.2 := by
  induction l generalizing acc with
  | nil => simp [tscmp]
  | cons p ps ih =>
    simp only [tscmp]
    rw [ih, lor_eq_zero_iff, Nat.xor_eq_zero]
    constructor
    · rintro ⟨⟨h1, h2⟩, h3⟩
      refine ⟨h1, fun q hq => ?_⟩
      rcases List.mem_cons.mp hq with rfl | hq
      · exact h2
      · exact h3 q hq
    · rintro ⟨h1, h2⟩
      exact ⟨⟨h1, h2 p (List.mem_cons_self _ _)⟩, fun q hq => h2 q (List.mem_cons_of_mem _ hq)⟩

theorem zip_forall_eq (a : List Nat) : ∀ b : List Nat, a.length = b.length →
    ((∀ p ∈ a.zip b, p.1 = p.2) ↔ a = b) := by
  induction a with
  | nil =>
    intro b hb
    cases b with
    | nil => simp
    | cons y ys => simp at hb
  | cons x xs ih =>
    intro b hb
    cases b with
    | nil => simp at hb
    | cons y ys =>
      have hlen : xs.length = ys.length := by simpa using hb
      constructor
      · intro h
        have hxy : x = y := h (x, y) (by simp [List.zip_cons_cons])
        have hxs : xs = ys := (ih ys hlen).mp
          (fun p hp => h p (by simp [List.zip_cons_cons, hp]))
        rw [hxy, hxs]
      · intro h
        injection h with h1 h2
        subst h1
        subst h2
        intro p hp
        simp only [List.zip_cons_cons, List.mem_cons] at hp
        rcases hp with rfl | hp
        · rfl
        · exact (ih xs rfl).mpr rfl p hp

theorem compareDigestRun_snd (a b : List Nat) : (compareDigestRun a b).2 = b.length := by
  unfold compareDigestRun
  rw [tscmp_snd, List.length_zip]
  split <;> omega

theorem compare_digest_eq_true_iff (a b : List Nat) : compare_digest a b = true ↔ a = b := by
  unfold compare_digest compareDigestRun
  by_cases h : a.length = b.length
  · rw [decide_eq_true_iff]
    simp only [if_pos h]
    rw [tscmp_fst_eq_zero]
    simp only [true_and, eq_self_iff_true]
    exact zip_forall_eq a b h
  · rw [decide_eq_true_iff]
    simp only [if_neg h]
    rw [tscmp_fst_eq_zero]
    constructor
    · rintro ⟨h1, -⟩
      exact absurd h1 one_ne_zero
    · intro hab
      exact absurd (hab ▸ rfl) h

theorem compare_digest_self (a : List Nat) : compare_digest a a = true :=
  (compare_digest_eq_true_iff a a).mpr rfl

/-! ### `pyInt` on rendered integers -/

theorem dropWhile_eq_self_head (p : Nat → Bool) (s : List Nat) (h : ∀ c ∈ s, p c = false) :
    s.dropWhile p = s := by
  cases s with
  | nil => rfl
  | cons c cs => simp [List.dropWhile_cons, h c (List.mem_cons_self _ _)]

theorem pyStrip_eq_self (s : List Nat) (h : ∀ c ∈ s, pyWhitespace c = false) : pyStrip s = s := by
  unfold pyStrip
  rw [dropWhile_eq_self_head _ _ h,
    dropWhile_eq_self_head _ _ (fun c hc => h c (List.mem_reverse.mp hc)),
    List.reverse_reverse]

theorem isDigitByte_not_ws (c : Nat) (h : isDigitByte c = true) : pyWhitespace c = false := by
  simp only [isDigitByte, Bool.and_eq_true, decide_eq_true_eq] at h
  simp only [pyWhitespace, Bool.or_eq_false_iff, Bool.and_eq_false_iff,
    decide_eq_false_iff_not]
  omega

theorem natDigits_all_digit (n : Nat) : ∀ c ∈ natDigits n, isDigitByte c = true := by
  induction n using Nat.strong_induction_on with
  | _ n ih =>
    by_cases h0 : n = 0
    · rw [natDigits, dif_pos h0]
      intro c hc
      simp at hc
    · rw [natDigits, dif_neg h0]
      intro c hc
      rcases List.mem_append.mp hc with h | h
      · exact ih (n / 10) (Nat.div_lt_self (Nat.pos_of_ne_zero h0) (by omega)) c h
      · have hc48 : c = 48 + n % 10 := by simpa using h
        subst hc48
        simp only [isDigitByte, Bool.and_eq_true, decide_eq_true_eq]
        omega

theorem natDigits_ne_nil (n : Nat) (h : n ≠ 0) : natDigits n ≠ [] := by
  rw [natDigits, dif_neg h]
  simp

theorem digitsToNat_append_single (xs : List Nat) (d : Nat) :
    digitsToNat (xs ++ [d]) = 10 * digitsToNat xs + (d - 48) := by
  unfold digitsToNat
  rw [List.foldl_append]
  rfl

theorem digitsToNat_natDigits (n : Nat) : digitsToNat (natDigits n) = n := by
  induction n using Nat.strong_induction_on with
  | _ n ih =>
    by_cases h0 : n = 0
    · rw [natDigits, dif_pos h0, h0]
      rfl
    · rw [natDigits, dif_neg h0, digitsToNat_append_single,
        ih (n / 10) (Nat.div_lt_self (Nat.pos_of_ne_zero h0) (by omega))]
      omega

theorem pyInt_all_digits (ds : List Nat) (hne : ds ≠ [])
    (hall : ∀ c ∈ ds, isDigitByte c = true) :
    pyInt ds = some (digitsToNat ds : Int) := by
  unfold pyInt
  rw [pyStrip_eq_self ds (fun c hc => isDigitByte_not_ws c (hall c hc))]
  cases ds with
  | nil => exact absurd rfl hne
  | cons c rest =>
    have hc := hall c (List.mem_cons_self _ _)
    simp only [isDigitByte, Bool.and_eq_true, decide_eq_true_eq] at hc
    have h43 : ¬ c = 43 := by omega
    have h45 : ¬ c = 45 := by omega
    have hcall : (c :: rest).all isDigitByte = true := List.all_eq_true.mpr hall
    simp [h43, h45, hcall]

theorem pyInt_neg_digits (ds : List Nat) (hne : ds ≠ [])
    (hall : ∀ c ∈ ds, isDigitByte c = true) :
    pyInt (45 :: ds) = some (-(digitsToNat ds : Int)) := by
  unfold pyInt
  have hstrip : pyStrip (45 :: ds) = 45 :: ds := by
    refine pyStrip_eq_self _ (fun c hc => ?_)
    rcases List.mem_cons.mp hc with rfl | hc
    · decide
    · exact isDigitByte_not_ws c (hall c hc)
  rw [hstrip]
  have hdall : ds.all isDigitByte = true := List.all_eq_true.mpr hall
  simp [hne, hdall]

theorem pyInt_pyStrOfInt (i : Int) : pyInt (pyStrOfInt i) = some i := by
  unfold pyStrOfInt
  by_cases hneg : i < 0
  · rw [if_pos hneg,
      pyInt_neg_digits _ (natDigits_ne_nil _ (by omega)) (natDigits_all_digit _),
      digitsToNat_natDigits]
    congr 1
    omega
  · rw [if_neg hneg]
    by_cases h0 : i = 0
    · rw [if_pos h0, pyInt_all_digits [48] (by simp) (by decide), h0]
      rfl
    · rw [if_neg h0,
        pyInt_all_digits _ (natDigits_ne_nil _ (by omega)) (natDigits_all_digit _),
        digitsToNat_natDigits]
      congr 1
      omega


theorem not_mem_61_of_hex (d : List Nat) (hd : d.all isHexDigitByte = true) : 61 ∉ d :=
  fun hmem => absurd (List.all_eq_true.mp hd 61 hmem) (by decide)

/-! ## Claims -/

/-- Claim C1: for every secret, every body, and every integer timestamp whose
distance from the clock is at most 300 seconds, calling
`verify_webhook_signature` with the signature equal to the lowercase-hex
HMAC-SHA256 of "timestamp.body" keyed by the secret returns true. -/
theorem claim_C1_valid_signature_accepted (payload_json secret : List Nat) (ts now : Int)
    (h : (now - ts).natAbs ≤ 300) :
    verify_webhook_signature payload_json
      (hmacSha256Hex secret (pyStrOfInt ts ++ 46 :: payload_json))
      (pyStrOfInt ts) secret now = some true := by
  simp only [verify_webhook_signature, pyInt_pyStrOfInt]
  rw [if_neg (by omega)]
  rw [extractDigest_no_sep _ (not_mem_61_hmacSha256Hex _ _), compare_digest_self]

theorem claim_C1_witness :
    verify_webhook_signature [104, 105]
      (hmacSha256Hex [115] (pyStrOfInt 100 ++ 46 :: [104, 105]))
      (pyStrOfInt 100) [115] 250 = some true :=
  claim_C1_valid_signature_accepted [104, 105] [115] 100 250 (by decide)

/-- Claim C2: whenever the parsed timestamp is more than 300 seconds from the
clock, `verify_webhook_signature` returns false, whatever the signature is. -/
theorem claim_C2_stale_timestamp_rejected (payload_json signature timestamp secret : List Nat)
    (now ts : Int) (hts : pyInt timestamp = some ts)
    (hfar : 300 < (now - ts).natAbs) :
    verify_webhook_signature payload_json signature timestamp secret now = some false := by
  simp only [verify_webhook_signature, hts]
  rw [if_pos hfar]

theorem claim_C2_witness :
    verify_webhook_signature [104] [97] [48] [115] 301 = some false :=
  claim_C2_stale_timestamp_rejected [104] [97] [48] [115] 301 0 (by decide) (by decide)

/-- Claim C3 is a code bug: on a non-integer timestamp header ("abc", bytes
97 98 99) `int(timestamp)` raises `ValueError` (modelled by `none`) instead
of returning false as the claim and the spec's failure semantics require.
Shown here at body "x", signature "s", secret "k", clock 0. -/
theorem claim_C3_nonint_timestamp_raises :
    verify_webhook_signature [120] [115] [97, 98, 99] [107] 0 = none := by
  rfl

/-- Claim C4 is a code bug: with a webhook secret configured ("k") and an
empty (or missing, since `headers.get(..., '')` yields "") signature header,
the guard `if WEBHOOK_SECRET and signature:` is false, so the handler skips
verification, parses the valid-JSON body — bytes 123 125, the empty JSON
object, so a dict — processes it and responds 200; it does not reject with
401 as the claim and the spec's invariant require. -/
theorem claim_C4_empty_signature_accepted :
    handle_vloex_webhook [107] [123, 125] [] [48] 0 = .received200 := by
  rfl

/-- Claim C5 as stated is false: for the header "a=b=c" (bytes 97 61 98 61
99) the code's digest is `split('=')[1]` = "b", not everything after the
first '=' ("b=c") as the claim says. -/
theorem claim_C5_counterexample :
    extractDigest [97, 61, 98, 61, 99] ≠ specExtractDigest [97, 61, 98, 61, 99] := by
  decide

/-- Claim C5 (amended): when the header contains '=', the digest compared is
the segment strictly between the first '=' and the next '=' or the end of
the header — the second field of `split('=')`; a header without '=' is
compared whole. -/
theorem claim_C5_amended_digest_extraction (a b s : List Nat) (ha : 61 ∉ a) (hs : 61 ∉ s) :
    extractDigest (a ++ 61 :: b) = b.takeWhile (fun c => c != 61) ∧ extractDigest s = s :=
  ⟨extractDigest_after_first a b ha, extractDigest_no_sep s hs⟩

theorem claim_C5_amended_witness :
    extractDigest ([97] ++ 61 :: [98, 61, 99]) = [98, 61, 99].takeWhile (fun c => c != 61) ∧
      extractDigest [120] = [120] :=
  claim_C5_amended_digest_extraction [97] [98, 61, 99] [120] (by decide) (by decide)

/-- Claim C6: for every body, secret, timestamp and hex digest `d`,
verification gives the same result for the bare digest `d` and for the
prefixed form "label=d" for any scheme label (one containing no '='). -/
theorem claim_C6_scheme_form_equivalent (payload_json timestamp secret label d : List Nat)
    (now : Int) (hd : d.all isHexDigitByte = true) (hl : 61 ∉ label) :
    verify_webhook_signature payload_json (label ++ 61 :: d) timestamp secret now =
      verify_webhook_signature payload_json d timestamp secret now := by
  have h61 : 61 ∉ d := not_mem_61_of_hex d hd
  have he : extractDigest (label ++ 61 :: d) = extractDigest d := by
    rw [extractDigest_after_first _ _ hl, extractDigest_no_sep _ h61,
      takeWhile_ne_of_not_mem _ _ h61]
  simp only [verify_webhook_signature, he]

theorem claim_C6_witness :
    verify_webhook_signature [104] ([115, 104, 97] ++ 61 :: [97, 98]) [48] [107] 0 =
      verify_webhook_signature [104] [97, 98] [48] [107] 0 :=
  claim_C6_scheme_form_equivalent [104] [48] [107] [115, 104, 97] [97, 98] 0
    (by decide) (by decide)

/-- Claim C8: the digest comparison is `hmac.compare_digest` — its loop
(CPython `_tscmp`) performs exactly `b.length` byte operations regardless of
the contents of either digest, so there is no short-circuit on the first
mismatching byte, and its boolean result decides exact equality. -/
theorem claim_C8_constant_time_compare (a b : List Nat) :
    (compareDigestRun a b).2 = b.length ∧ (compare_digest a b = true ↔ a = b) :=
  ⟨compareDigestRun_snd a b, compare_digest_eq_true_iff a b⟩

/-- Claim C9: `Vloex.__init__` raises ValueError for a missing (None) or
empty api_key, and for a non-empty api_key stores the given api_key and
base_url unchanged on the client. -/
theorem claim_C9_init_validation (k base : List Nat) (hk : k ≠ []) :
    Vloex.init none base = .error .valueError ∧
    Vloex.init (some []) base = .error .valueError ∧
    Vloex.init (some k) base = .ok ⟨k, base⟩ := by
  refine ⟨rfl, rfl, ?_⟩
  simp [Vloex.init, hk]

theorem claim_C9_witness :
    Vloex.init none DEFAULT_BASE_URL = .error .valueError ∧
    Vloex.init (some []) DEFAULT_BASE_URL = .error .valueError ∧
    Vloex.init (some [107]) DEFAULT_BASE_URL = .ok ⟨[107], DEFAULT_BASE_URL⟩ :=
  claim_C9_init_validation [107] DEFAULT_BASE_URL (by decide)

/-- Claim C10: `from_journey` with `product_context` missing (None) or empty
raises ValueError and produces no request: the `.error` outcome carries no
path and no payload, mirroring the raise on line 150 of client.py, which
happens before the payload dict is built. -/
theorem claim_C10_missing_product_context (screenshots descriptions : Option (List (List Nat)))
    (product_url : Option (List Nat)) (pages : Option (List (List Nat)))
    (product_context : Option (List Nat)) (step_duration : Int)
    (avatar_position tone : List Nat) (webhook_url webhook_secret : Option (List Nat))
    (options : List (List Nat × List Nat))
    (hpc : product_context = none ∨ product_context = some []) :
    from_journey screenshots descriptions product_url pages product_context step_duration
      avatar_position tone webhook_url webhook_secret options = .error .valueError := by
  rcases hpc with rfl | rfl <;> rfl

theorem claim_C10_witness :
    from_journey none none none none none 15 [] [] none none [] = .error .valueError :=
  claim_C10_missing_product_context none none none none none 15 [] [] none none []
    (Or.inl rfl)
